import Mathlib

/-!
Verification development for the flight-search backend.

The embedding translates the core modules of the backend
(`utils/dateUtils.ts`, `utils/connectionRules.ts`, `services/DataLoader.ts`,
`services/FlightSearchService.ts`) into executable Lean definitions and
proves the stated properties about them.

Modelling conventions:
* Absolute instants are integers counting minutes (the code uses millisecond
  `Date` values and `differenceInMinutes`; all data and all rules operate at
  whole-minute granularity, so minute-valued instants are exact).
* An IANA timezone is modelled by its offset function `Int → Int`: the
  offset, in minutes, the zone adds to UTC at a given absolute instant.
* A local ISO-8601 timestamp string `"YYYY-MM-DDThh:mm:ss"` is modelled as
  the pair of its date part (the substring before `T`, which the code
  extracts with `split('T')[0]`) and its wall-clock value in minutes (the
  value `parseISO` assigns to it when the process runs in UTC, which is the
  deployment assumption of the backend).
* The `uuidv4()` calls that mint itinerary ids are modelled by an explicit
  id supply `gen : Nat → String`, one fresh draw per created itinerary.
* `Array.prototype.sort` with comparator `a.totalDuration - b.totalDuration`
  is a stable ascending sort (ECMAScript 2019 requires stability); any two
  stable sorts by the same key agree, so it is embedded as Mathlib's
  `List.insertionSort`, which is stable.
* TypeScript exceptions become `Except` values.
-/

namespace FlightSearch

/-! ## Time normalizer (`utils/dateUtils.ts`) -/

/-- A timezone, modelled by its UTC-offset function: minutes east of UTC at a
given absolute instant. -/
abbrev Timezone := Int → Int

/-- A local ISO-8601 timestamp without offset, modelled as its date part
(before the `T`) and its wall-clock value in minutes. -/
structure LocalTimestamp where
  datePart : String
  wallMinutes : Int
deriving DecidableEq, Repr

/-- Model of `parseISO` on a no-offset string under a UTC system zone: the
resulting `Date` has the wall-clock value of the string. -/
def parseISO (t : LocalTimestamp) : Int :=
  t.wallMinutes

/-- Model of `date-fns-tz`'s `utcToZonedTime`: shifts the instant so that its
UTC rendering shows the zone's wall-clock time. -/
def utcToZonedTime (d : Int) (tz : Timezone) : Int :=
  d + tz d

/-- Embeds `localTimeToUTC` from `dateUtils.ts`: parse the local string, then
subtract the zone shift observed at the parsed instant. -/
def localTimeToUTC (localTimeString : LocalTimestamp) (timezone : Timezone) : Int :=
  let date := parseISO localTimeString
  let zonedDate := utcToZonedTime date timezone
  date - (zonedDate - date)

/-- Embeds `utcToLocalTime` from `dateUtils.ts`: the wall-clock value of the
instant in the zone (the code formats it as a string; we keep the wall-clock
minutes, which is the string modulo formatting). -/
def utcToLocalTime (utcDate : Int) (timezone : Timezone) : Int :=
  utcToZonedTime utcDate timezone

/-- Embeds `calculateDuration`: signed difference in minutes. -/
def calculateDuration (departureUTC arrivalUTC : Int) : Int :=
  arrivalUTC - departureUTC

/-- Embeds `calculateLayoverDuration`: signed difference in minutes. -/
def calculateLayoverDuration (firstArrivalUTC secondDepartureUTC : Int) : Int :=
  secondDepartureUTC - firstArrivalUTC

/-! ## Domain types (`types/index.ts`) -/

/-- Embeds the `Airport` interface; the IANA timezone name is replaced by the
zone it denotes. -/
structure Airport where
  code : String
  name : String
  city : String
  country : String
  timezone : Timezone

/-- Embeds the raw `Flight` interface. -/
structure Flight where
  flightNumber : String
  airline : String
  origin : String
  destination : String
  departureTime : LocalTimestamp
  arrivalTime : LocalTimestamp
  price : Int
  aircraft : String
deriving DecidableEq

/-- Embeds `FlightData`, the shape of the loaded dataset. -/
structure FlightData where
  airports : List Airport
  flights : List Flight

/-- Embeds `FlightWithMetadata`: a raw flight plus resolved airports,
absolute instants and duration. -/
structure FlightWithMetadata extends Flight where
  originAirport : Airport
  destinationAirport : Airport
  departureDateUTC : Int
  arrivalDateUTC : Int
  durationMinutes : Int

/-- Embeds `ConnectionCandidate`. -/
structure ConnectionCandidate where
  segments : List FlightWithMetadata
  totalDuration : Int
  totalPrice : Int

/-- Embeds `SearchParams`. -/
structure SearchParams where
  origin : String
  destination : String
  date : String
deriving DecidableEq

/-- Embeds `FlightSegment` (the externally visible segment form); the two
formatted local times are kept as wall-clock minutes. -/
structure FlightSegment where
  flightNumber : String
  airline : String
  origin : String
  originCountry : String
  originCity : String
  destination : String
  destinationCountry : String
  destinationCity : String
  departureTime : Int
  arrivalTime : Int
  duration : Int
  price : Int
deriving DecidableEq

/-- Embeds `Layover`. -/
structure Layover where
  airport : String
  airportCity : String
  airportCountry : String
  duration : Int
  isDomestic : Bool
deriving DecidableEq

/-- Embeds `Itinerary`. -/
structure Itinerary where
  id : String
  segments : List FlightSegment
  layovers : List Layover
  totalDuration : Int
  totalPrice : Int
  stops : Nat
deriving DecidableEq

/-- Embeds `SearchResponse`. -/
structure SearchResponse where
  itineraries : List Itinerary
  searchParams : SearchParams
  totalResults : Nat
deriving DecidableEq

/-! ## Connection rules (`utils/connectionRules.ts`) -/

/-- `LAYOVER_CONSTRAINTS.MIN_DOMESTIC`. -/
def LAYOVER_MIN_DOMESTIC : Int := 45

/-- `LAYOVER_CONSTRAINTS.MIN_INTERNATIONAL`. -/
def LAYOVER_MIN_INTERNATIONAL : Int := 90

/-- `LAYOVER_CONSTRAINTS.MAX`. -/
def LAYOVER_MAX : Int := 360

/-- Embeds `isDomesticConnection`: both airports of the connection share a
country. -/
def isDomesticConnection (arrivingFlight departingFlight : FlightWithMetadata) : Bool :=
  arrivingFlight.destinationAirport.country == departingFlight.originAirport.country

/-- Embeds `isValidLayoverDuration`. -/
def isValidLayoverDuration (layoverMinutes : Int) (isDomestic : Bool) : Bool :=
  let minRequired := if isDomestic then LAYOVER_MIN_DOMESTIC else LAYOVER_MIN_INTERNATIONAL
  decide (minRequired ≤ layoverMinutes) && decide (layoverMinutes ≤ LAYOVER_MAX)

/-- Embeds `canConnect`: same airport, strictly forward in time, and a legal
layover duration. -/
def canConnect (firstFlight secondFlight : FlightWithMetadata) (layoverMinutes : Int) : Bool :=
  if firstFlight.destination ≠ secondFlight.origin then
    false
  else if secondFlight.departureDateUTC ≤ firstFlight.arrivalDateUTC then
    false
  else
    isValidLayoverDuration layoverMinutes (isDomesticConnection firstFlight secondFlight)

/-- Embeds `isValidDateFormat` (and the identical inline regex
`^\d{4}-\d{2}-\d{2}$` used by `validateSearchParams`). -/
def isValidDateFormat (date : String) : Bool :=
  match date.toList with
  | [y1, y2, y3, y4, s1, m1, m2, s2, d1, d2] =>
    y1.isDigit && y2.isDigit && y3.isDigit && y4.isDigit && (s1 == '-') &&
      m1.isDigit && m2.isDigit && (s2 == '-') && d1.isDigit && d2.isDigit
  | _ => false

/-! ## Flight store (`services/DataLoader.ts`) -/

/-- A load-time failure: `enrichFlightWithMetadata` throws when an airport
code of a flight is absent from the airport table. -/
inductive LoadError where
  | missingAirport (flightNumber origin destination : String)

/-- The mutable state of the `DataLoader` singleton: the parsed dataset, the
airport map and the three flight indices.  The maps are modelled as total
functions; an absent key yields `none` / `[]`, matching the code's
`map.get(k) || []` reads. -/
structure DataStore where
  flightData : Option FlightData
  airportMap : String → Option Airport
  flightsWithMetadata : List FlightWithMetadata
  flightsByOrigin : String → List FlightWithMetadata
  flightsByDestination : String → List FlightWithMetadata
  flightsByDate : String → List FlightWithMetadata

/-- The store before any `loadData` call: empty maps and lists. -/
def emptyStore : DataStore where
  flightData := none
  airportMap := fun _ => none
  flightsWithMetadata := []
  flightsByOrigin := fun _ => []
  flightsByDestination := fun _ => []
  flightsByDate := fun _ => []

/-- Point update of an airport map (`Map.set`). -/
def setAirport (m : String → Option Airport) (key : String) (value : Airport) :
    String → Option Airport :=
  fun x => if x = key then some value else m x

/-- Appends a flight to the bucket of `key` (`flights.push(flight)` followed
by `map.set(key, flights)` on the `get(key) || []` list). -/
def bucketAdd (m : String → List FlightWithMetadata) (key : String)
    (flight : FlightWithMetadata) : String → List FlightWithMetadata :=
  fun x => if x = key then m key ++ [flight] else m x

/-- Embeds `enrichFlightWithMetadata`: resolve both airports (throwing if one
is missing), convert the local times to absolute instants, and compute the
duration.  No check is made on the sign of the duration. -/
def enrichFlightWithMetadata (airportMap : String → Option Airport) (flight : Flight) :
    Except LoadError FlightWithMetadata :=
  match airportMap flight.origin, airportMap flight.destination with
  | some originAirport, some destinationAirport =>
    let departureDateUTC := localTimeToUTC flight.departureTime originAirport.timezone
    let arrivalDateUTC := localTimeToUTC flight.arrivalTime destinationAirport.timezone
    let durationMinutes := calculateDuration departureDateUTC arrivalDateUTC
    .ok { toFlight := flight
          originAirport := originAirport
          destinationAirport := destinationAirport
          departureDateUTC := departureDateUTC
          arrivalDateUTC := arrivalDateUTC
          durationMinutes := durationMinutes }
  | _, _ => .error (.missingAirport flight.flightNumber flight.origin flight.destination)

/-- Enriches every flight of the dataset in order, propagating the first
failure — the sequential behaviour of the throwing `flights.map(...)` in
`buildIndices`. -/
def enrichAll (airportMap : String → Option Airport) :
    List Flight → Except LoadError (List FlightWithMetadata)
  | [] => .ok []
  | f :: fs =>
    match enrichFlightWithMetadata airportMap f with
    | .error e => .error e
    | .ok fw =>
      match enrichAll airportMap fs with
      | .error e => .error e
      | .ok fws => .ok (fw :: fws)

/-- The airport map after `buildIndices` has run `airportMap.set` for every
airport of the dataset, starting from the map already in the store (the code
never clears it). -/
def loadAirportMap (m0 : String → Option Airport) (airports : List Airport) :
    String → Option Airport :=
  airports.foldl (fun m a => setAirport m a.code a) m0

/-- Embeds `buildIndices`: rebuild the airport map and the enriched flight
list, then push every enriched flight onto the by-origin, by-destination and
by-date buckets.  Exactly as in the code, the three bucket maps start from
their current contents — they are never cleared. -/
def buildIndices (st : DataStore) (data : FlightData) : Except LoadError DataStore :=
  let amap := loadAirportMap st.airportMap data.airports
  match enrichAll amap data.flights with
  | .error e => .error e
  | .ok fwm =>
    .ok { flightData := some data
          airportMap := amap
          flightsWithMetadata := fwm
          flightsByOrigin := fwm.foldl (fun m f => bucketAdd m f.origin f) st.flightsByOrigin
          flightsByDestination :=
            fwm.foldl (fun m f => bucketAdd m f.destination f) st.flightsByDestination
          flightsByDate :=
            fwm.foldl (fun m f => bucketAdd m f.departureTime.datePart f) st.flightsByDate }

/-- Embeds `loadData`: store the parsed dataset and build the indices (file
reading and JSON parsing are outside the model; the catch block only
rethrows, and `buildIndices` already records the dataset in the resulting
store). -/
def loadData (st : DataStore) (data : FlightData) : Except LoadError DataStore :=
  buildIndices st data

/-- Embeds `getAirport`. -/
def getAirport (st : DataStore) (code : String) : Option Airport :=
  st.airportMap code

/-- Embeds `getFlightsByOriginAndDate`: the origin bucket filtered by the
date part of the local departure time. -/
def getFlightsByOriginAndDate (st : DataStore) (origin date : String) :
    List FlightWithMetadata :=
  (st.flightsByOrigin origin).filter fun flight => flight.departureTime.datePart == date

/-- Embeds `getDirectFlights`. -/
def getDirectFlights (st : DataStore) (origin destination date : String) :
    List FlightWithMetadata :=
  (getFlightsByOriginAndDate st origin date).filter fun flight =>
    flight.destination == destination

/-- Embeds `getFlightsDepartingFrom`: the whole origin bucket, unfiltered by
date. -/
def getFlightsDepartingFrom (st : DataStore) (airport : String) : List FlightWithMetadata :=
  st.flightsByOrigin airport

/-! ## Search service (`services/FlightSearchService.ts`) -/

/-- The typed request-time validation failures thrown by
`validateSearchParams`, in the order the code checks them. -/
inductive SearchError where
  | invalidOriginAirport
  | invalidDestinationAirport
  | sameAirport
  | invalidDateFormat
deriving DecidableEq

/-- Embeds `validateSearchParams`: origin airport exists, destination airport
exists, the two differ, and the date matches the `YYYY-MM-DD` regex — checked
in exactly that order, first failure wins. -/
def validateSearchParams (st : DataStore) (params : SearchParams) :
    Except SearchError Unit :=
  match getAirport st params.origin with
  | none => .error .invalidOriginAirport
  | some _ =>
    match getAirport st params.destination with
    | none => .error .invalidDestinationAirport
    | some _ =>
      if params.origin = params.destination then .error .sameAirport
      else if !(isValidDateFormat params.date) then .error .invalidDateFormat
      else .ok ()

/-- Embeds `findDirectFlights`: each direct flight becomes a one-segment
candidate. -/
def findDirectFlights (st : DataStore) (origin destination date : String) :
    List ConnectionCandidate :=
  (getDirectFlights st origin destination date).map fun flight =>
    { segments := [flight]
      totalDuration := flight.durationMinutes
      totalPrice := flight.price }

/-- Embeds `findOneStopConnections`: for every dated first leg not already
reaching the destination, every flight out of its arrival airport that lands
at the destination and passes `canConnect`. -/
def findOneStopConnections (st : DataStore) (origin destination date : String) :
    List ConnectionCandidate :=
  (getFlightsByOriginAndDate st origin date).flatMap fun firstFlight =>
    if firstFlight.destination == destination then []
    else
      (getFlightsDepartingFrom st firstFlight.destination).filterMap fun secondFlight =>
        if secondFlight.destination != destination then none
        else
          let layoverMinutes :=
            calculateLayoverDuration firstFlight.arrivalDateUTC secondFlight.departureDateUTC
          if canConnect firstFlight secondFlight layoverMinutes then
            some { segments := [firstFlight, secondFlight]
                   totalDuration := firstFlight.durationMinutes + layoverMinutes +
                     secondFlight.durationMinutes
                   totalPrice := firstFlight.price + secondFlight.price }
          else none

/-- Embeds `findTwoStopConnections`: extends the one-stop enumeration by one
hop; the middle leg may reach neither the destination (that is a one-stop)
nor the origin (circular route guard). -/
def findTwoStopConnections (st : DataStore) (origin destination date : String) :
    List ConnectionCandidate :=
  (getFlightsByOriginAndDate st origin date).flatMap fun firstFlight =>
    if firstFlight.destination == destination then []
    else
      (getFlightsDepartingFrom st firstFlight.destination).flatMap fun secondFlight =>
        if secondFlight.destination == destination then []
        else if secondFlight.destination == origin then []
        else
          let firstLayover :=
            calculateLayoverDuration firstFlight.arrivalDateUTC secondFlight.departureDateUTC
          if !(canConnect firstFlight secondFlight firstLayover) then []
          else
            (getFlightsDepartingFrom st secondFlight.destination).filterMap fun thirdFlight =>
              if thirdFlight.destination != destination then none
              else
                let secondLayover :=
                  calculateLayoverDuration secondFlight.arrivalDateUTC
                    thirdFlight.departureDateUTC
                if canConnect secondFlight thirdFlight secondLayover then
                  some { segments := [firstFlight, secondFlight, thirdFlight]
                         totalDuration := firstFlight.durationMinutes + firstLayover +
                           secondFlight.durationMinutes + secondLayover +
                           thirdFlight.durationMinutes
                         totalPrice := firstFlight.price + secondFlight.price +
                           thirdFlight.price }
                else none

/-- The adjacent pairs of a list, in order: the zip of the list with its
tail.  This is the `for (i = 0; i < n - 1; i++)` pairing used when
`candidateToItinerary` builds layovers. -/
def adjPairs {α : Type} (l : List α) : List (α × α) :=
  l.zip l.tail

/-- The visible segment built from an enriched flight inside
`candidateToItinerary`: codes, cities, countries, localized times, duration
and price. -/
def toSegment (flight : FlightWithMetadata) : FlightSegment where
  flightNumber := flight.flightNumber
  airline := flight.airline
  origin := flight.origin
  originCountry := flight.originAirport.country
  originCity := flight.originAirport.city
  destination := flight.destination
  destinationCountry := flight.destinationAirport.country
  destinationCity := flight.destinationAirport.city
  departureTime := utcToLocalTime flight.departureDateUTC flight.originAirport.timezone
  arrivalTime := utcToLocalTime flight.arrivalDateUTC flight.destinationAirport.timezone
  duration := flight.durationMinutes
  price := flight.price

/-- The layover record built between two consecutive segments inside
`candidateToItinerary`. -/
def mkLayover (currentFlight nextFlight : FlightWithMetadata) : Layover where
  airport := currentFlight.destination
  airportCity := currentFlight.destinationAirport.city
  airportCountry := currentFlight.destinationAirport.country
  duration := calculateLayoverDuration currentFlight.arrivalDateUTC nextFlight.departureDateUTC
  isDomestic := isDomesticConnection currentFlight nextFlight

/-- Embeds `candidateToItinerary`; the `uuidv4()` id is passed in
explicitly. -/
def candidateToItinerary (id : String) (candidate : ConnectionCandidate) : Itinerary where
  id := id
  segments := candidate.segments.map toSegment
  layovers := (adjPairs candidate.segments).map fun pr => mkLayover pr.1 pr.2
  totalDuration := candidate.totalDuration
  totalPrice := candidate.totalPrice
  stops := candidate.segments.length - 1

/-- Embeds `convertToItineraries`, threading the id supply: the candidate at
overall position `n` receives the `n`-th fresh id. -/
def convertToItineraries (gen : Nat → String) (n : Nat) :
    List ConnectionCandidate → List Itinerary
  | [] => []
  | c :: cs => candidateToItinerary (gen n) c :: convertToItineraries gen (n + 1) cs

/-- The three enumeration stages of `search`, concatenated in encounter
order: direct, then one-stop, then two-stop. -/
def searchCandidates (st : DataStore) (params : SearchParams) : List ConnectionCandidate :=
  findDirectFlights st params.origin params.destination params.date ++
    findOneStopConnections st params.origin params.destination params.date ++
    findTwoStopConnections st params.origin params.destination params.date

/-- The comparator of `itineraries.sort((a, b) => a.totalDuration - b.totalDuration)`. -/
def itinLE (a b : Itinerary) : Prop :=
  a.totalDuration ≤ b.totalDuration

instance : DecidableRel itinLE :=
  fun a b => inferInstanceAs (Decidable (a.totalDuration ≤ b.totalDuration))

instance : IsTotal Itinerary itinLE :=
  ⟨fun a b => Int.le_total a.totalDuration b.totalDuration⟩

instance : IsTrans Itinerary itinLE :=
  ⟨fun _ _ _ h1 h2 => le_trans h1 h2⟩

/-- Embeds `search`: validate, enumerate the three stages, convert each
candidate to an itinerary (drawing one fresh id each), sort stably by total
duration, and answer with the sorted list and its length. -/
def search (gen : Nat → String) (st : DataStore) (params : SearchParams) :
    Except SearchError SearchResponse :=
  match validateSearchParams st params with
  | .error e => .error e
  | .ok _ =>
    let itineraries := convertToItineraries gen 0 (searchCandidates st params)
    let sorted := itineraries.insertionSort itinLE
    .ok { itineraries := sorted
          searchParams := params
          totalResults := sorted.length }

/-! ## Derived notions used in the statements -/

/-- Two consecutive legs form a legal connection: `canConnect` holds for the
layover computed between them — this is exactly the test both search stages
run before keeping a pair of adjacent legs. -/
def connects (f g : FlightWithMetadata) : Prop :=
  canConnect f g (calculateLayoverDuration f.arrivalDateUTC g.departureDateUTC) = true

/-- Erases the freshly generated id of an itinerary. -/
def stripItineraryId (it : Itinerary) : Itinerary :=
  { it with id := "" }

/-- Erases the freshly generated ids of a search outcome. -/
def stripIds (r : Except SearchError SearchResponse) : Except SearchError SearchResponse :=
  r.map fun resp => { resp with itineraries := resp.itineraries.map stripItineraryId }

/-! ## Concrete data used by witnesses and counterexamples -/

/-- The UTC-like fixed zone used by the sample airports. -/
def tz0 : Timezone := fun _ => 0

/-- A fixed-offset zone, five hours west of UTC. -/
def tzFixed : Timezone := fun _ => -300

/-- A zone with a daylight-saving style offset transition at instant 1000. -/
def tzShift : Timezone := fun x => if x < 1000 then 0 else 60

def airportAAA : Airport :=
  { code := "AAA", name := "Alpha", city := "Alphaville", country := "US", timezone := tz0 }

def airportBBB : Airport :=
  { code := "BBB", name := "Bravo", city := "Bravoville", country := "US", timezone := tz0 }

def airportCCC : Airport :=
  { code := "CCC", name := "Charlie", city := "Charlietown", country := "US", timezone := tz0 }

def airportDDD : Airport :=
  { code := "DDD", name := "Delta", city := "Deltatown", country := "US", timezone := tz0 }

def flightF1 : Flight :=
  { flightNumber := "F1", airline := "SP", origin := "AAA", destination := "BBB"
    departureTime := ⟨"2024-03-15", 0⟩, arrivalTime := ⟨"2024-03-15", 60⟩
    price := 100, aircraft := "A320" }

def flightF2 : Flight :=
  { flightNumber := "F2", airline := "SP", origin := "BBB", destination := "CCC"
    departureTime := ⟨"2024-03-15", 120⟩, arrivalTime := ⟨"2024-03-15", 180⟩
    price := 110, aircraft := "A320" }

def flightF3 : Flight :=
  { flightNumber := "F3", airline := "SP", origin := "BBB", destination := "DDD"
    departureTime := ⟨"2024-03-15", 120⟩, arrivalTime := ⟨"2024-03-15", 180⟩
    price := 120, aircraft := "A320" }

def flightF4 : Flight :=
  { flightNumber := "F4", airline := "SP", origin := "DDD", destination := "CCC"
    departureTime := ⟨"2024-03-15", 240⟩, arrivalTime := ⟨"2024-03-15", 300⟩
    price := 130, aircraft := "A320" }

/-- A dataset with one one-stop and one two-stop AAA→CCC route, no self-loop
flights. -/
def exDataMain : FlightData :=
  { airports := [airportAAA, airportBBB, airportCCC, airportDDD]
    flights := [flightF1, flightF2, flightF3, flightF4] }

def flightL0 : Flight :=
  { flightNumber := "L0", airline := "SP", origin := "AAA", destination := "AAA"
    departureTime := ⟨"2024-03-15", 0⟩, arrivalTime := ⟨"2024-03-15", 60⟩
    price := 50, aircraft := "A320" }

def flightL1 : Flight :=
  { flightNumber := "L1", airline := "SP", origin := "AAA", destination := "BBB"
    departureTime := ⟨"2024-03-15", 120⟩, arrivalTime := ⟨"2024-03-15", 180⟩
    price := 100, aircraft := "A320" }

def flightL2 : Flight :=
  { flightNumber := "L2", airline := "SP", origin := "BBB", destination := "CCC"
    departureTime := ⟨"2024-03-15", 240⟩, arrivalTime := ⟨"2024-03-15", 300⟩
    price := 110, aircraft := "A320" }

/-- A dataset whose self-loop flight `L0 : AAA→AAA` lets a two-stop
itinerary revisit the search origin as its first intermediate stop. -/
def exDataLoop : FlightData :=
  { airports := [airportAAA, airportBBB, airportCCC]
    flights := [flightL0, flightL1, flightL2] }

/-- A flight whose local arrival precedes its local departure in the same
zone: its computed absolute duration is negative. -/
def flightNEG : Flight :=
  { flightNumber := "NEG1", airline := "SP", origin := "AAA", destination := "BBB"
    departureTime := ⟨"2024-03-15", 120⟩, arrivalTime := ⟨"2024-03-15", 60⟩
    price := 100, aircraft := "A320" }

def exData3 : FlightData :=
  { airports := [airportAAA, airportBBB], flights := [flightNEG] }

def flightF100 : Flight :=
  { flightNumber := "F100", airline := "SP", origin := "AAA", destination := "BBB"
    departureTime := ⟨"2024-03-15", 0⟩, arrivalTime := ⟨"2024-03-15", 60⟩
    price := 100, aircraft := "A320" }

def exData8 : FlightData :=
  { airports := [airportAAA, airportBBB], flights := [flightF100] }

/-- A sample id supply. -/
def gEx : Nat → String := fun n => "itin-" ++ toString n

/-- The id supply of one search call. -/
def genA : Nat → String := fun _ => "id-a"

/-- The id supply of an independent second search call. -/
def genB : Nat → String := fun _ => "id-b"

def exParamsMain : SearchParams :=
  { origin := "AAA", destination := "CCC", date := "2024-03-15" }

def emptyResponse (p : SearchParams) : SearchResponse :=
  { itineraries := [], searchParams := p, totalResults := 0 }

def defaultItinerary : Itinerary :=
  { id := "", segments := [], layovers := [], totalDuration := 0, totalPrice := 0, stops := 0 }

def defaultSegment : FlightSegment :=
  { flightNumber := "", airline := "", origin := "", originCountry := "", originCity := ""
    destination := "", destinationCountry := "", destinationCity := ""
    departureTime := 0, arrivalTime := 0, duration := 0, price := 0 }

def defaultLayover : Layover :=
  { airport := "", airportCity := "", airportCountry := "", duration := 0, isDomestic := false }

def exStoreMain : DataStore :=
  (loadData emptyStore exDataMain).toOption.getD emptyStore

def exRespMain : SearchResponse :=
  (search gEx exStoreMain exParamsMain).toOption.getD (emptyResponse exParamsMain)

def exItinOne : Itinerary :=
  exRespMain.itineraries.getD 0 defaultItinerary

def exItinTwo : Itinerary :=
  exRespMain.itineraries.getD 1 defaultItinerary

/-- The first layover of the one-stop sample itinerary, paired with its
adjacent segments. -/
def exZipOne : Layover × (FlightSegment × FlightSegment) :=
  (exItinOne.layovers.getD 0 defaultLayover,
    (exItinOne.segments.getD 0 defaultSegment, exItinOne.segments.getD 1 defaultSegment))

def exSegTwoFirst : FlightSegment :=
  exItinTwo.segments.getD 0 defaultSegment

def exStoreLoop : DataStore :=
  (loadData emptyStore exDataLoop).toOption.getD emptyStore

def exRespLoop : SearchResponse :=
  (search gEx exStoreLoop exParamsMain).toOption.getD (emptyResponse exParamsMain)

def exItinLoop : Itinerary :=
  exRespLoop.itineraries.getD 1 defaultItinerary

def exStore3 : DataStore :=
  (loadData emptyStore exData3).toOption.getD emptyStore

deriving instance DecidableEq for Except

/-! ## Helper lemmas -/

/-- What a successful `canConnect` guarantees about the two legs. -/
lemma canConnect_spec {f g : FlightWithMetadata} {m : Int} (h : canConnect f g m = true) :
    f.destination = g.origin ∧ f.arrivalDateUTC < g.departureDateUTC ∧
      isValidLayoverDuration m (isDomesticConnection f g) = true := by
  unfold canConnect at h
  split_ifs at h with h1 h2
  exact ⟨not_not.mp h1, not_le.mp h2, h⟩

/-- Bounds extracted from a successful `isValidLayoverDuration` test. -/
lemma isValidLayover_bounds {m : Int} {dom : Bool} (h : isValidLayoverDuration m dom = true) :
    (dom = true → 45 ≤ m ∧ m ≤ 360) ∧ (dom = false → 90 ≤ m ∧ m ≤ 360) := by
  cases dom <;>
    simp [isValidLayoverDuration, LAYOVER_MIN_DOMESTIC, LAYOVER_MIN_INTERNATIONAL,
      LAYOVER_MAX] at h <;>
    simp [h]

/-- A chain property holds at every adjacent pair. -/
lemma chain'_adjPairs {α : Type} {R : α → α → Prop} :
    ∀ {l : List α}, l.Chain' R → ∀ p ∈ adjPairs l, R p.1 p.2
  | [], _, p, hp => by simp [adjPairs] at hp
  | [_], _, p, hp => by simp [adjPairs] at hp
  | a :: b :: l, h, p, hp => by
    rw [List.chain'_cons] at h
    simp only [adjPairs, List.tail_cons, List.zip_cons_cons, List.mem_cons] at hp
    rcases hp with rfl | hp
    · exact h.1
    · exact chain'_adjPairs h.2 p hp

/-- `adjPairs` commutes with `map`. -/
lemma adjPairs_map {α β : Type} (f : α → β) (l : List α) :
    adjPairs (l.map f) = (adjPairs l).map fun p => (f p.1, f p.2) := by
  simp [adjPairs, ← List.map_tail, List.zip_map, Prod.map_def]

/-- The number of adjacent pairs. -/
lemma adjPairs_length {α : Type} (l : List α) : (adjPairs l).length = l.length - 1 := by
  rw [adjPairs, List.length_zip, List.length_tail]
  omega

/-- Shape of a direct-stage candidate. -/
lemma mem_findDirectFlights {st : DataStore} {o d date : String} {c : ConnectionCandidate}
    (h : c ∈ findDirectFlights st o d date) :
    ∃ f, f ∈ getDirectFlights st o d date ∧
      c = { segments := [f], totalDuration := f.durationMinutes, totalPrice := f.price } := by
  simp only [findDirectFlights, List.mem_map] at h
  obtain ⟨f, hf, rfl⟩ := h
  exact ⟨f, hf, rfl⟩

/-- Shape and guarantees of a one-stop candidate. -/
lemma mem_findOneStopConnections {st : DataStore} {o d date : String} {c : ConnectionCandidate}
    (h : c ∈ findOneStopConnections st o d date) :
    ∃ f1 f2, f1 ∈ getFlightsByOriginAndDate st o date ∧
      f2 ∈ getFlightsDepartingFrom st f1.destination ∧
      canConnect f1 f2 (calculateLayoverDuration f1.arrivalDateUTC f2.departureDateUTC) = true ∧
      c.segments = [f1, f2] := by
  simp only [findOneStopConnections, List.mem_flatMap] at h
  obtain ⟨f1, hf1, hc⟩ := h
  by_cases h1 : (f1.destination == d) = true
  · rw [if_pos h1] at hc
    simp at hc
  · rw [if_neg h1] at hc
    simp only [List.mem_filterMap] at hc
    obtain ⟨f2, hf2, heq⟩ := hc
    by_cases h2 : (f2.destination != d) = true
    · rw [if_pos h2] at heq
      cases heq
    · rw [if_neg h2] at heq
      by_cases h3 : canConnect f1 f2
          (calculateLayoverDuration f1.arrivalDateUTC f2.departureDateUTC) = true
      · rw [if_pos h3] at heq
        injection heq with heq
        exact ⟨f1, f2, hf1, hf2, h3, by rw [← heq]⟩
      · rw [if_neg h3] at heq
        cases heq

/-- Shape and guarantees of a two-stop candidate. -/
lemma mem_findTwoStopConnections {st : DataStore} {o d date : String} {c : ConnectionCandidate}
    (h : c ∈ findTwoStopConnections st o d date) :
    ∃ f1 f2 f3, f1 ∈ getFlightsByOriginAndDate st o date ∧
      f2 ∈ getFlightsDepartingFrom st f1.destination ∧
      f3 ∈ getFlightsDepartingFrom st f2.destination ∧
      (f2.destination == o) = false ∧
      canConnect f1 f2 (calculateLayoverDuration f1.arrivalDateUTC f2.departureDateUTC) = true ∧
      canConnect f2 f3 (calculateLayoverDuration f2.arrivalDateUTC f3.departureDateUTC) = true ∧
      c.segments = [f1, f2, f3] := by
  simp only [findTwoStopConnections, List.mem_flatMap] at h
  obtain ⟨f1, hf1, hc⟩ := h
  by_cases h1 : (f1.destination == d) = true
  · rw [if_pos h1] at hc
    simp at hc
  · rw [if_neg h1] at hc
    simp only [List.mem_flatMap] at hc
    obtain ⟨f2, hf2, hc⟩ := hc
    by_cases h2 : (f2.destination == d) = true
    · rw [if_pos h2] at hc
      simp at hc
    · rw [if_neg h2] at hc
      by_cases h3 : (f2.destination == o) = true
      · rw [if_pos h3] at hc
        simp at hc
      · rw [if_neg h3] at hc
        by_cases h4 : (!canConnect f1 f2
            (calculateLayoverDuration f1.arrivalDateUTC f2.departureDateUTC)) = true
        · rw [if_pos h4] at hc
          simp at hc
        · rw [if_neg h4] at hc
          simp only [List.mem_filterMap] at hc
          obtain ⟨f3, hf3, heq⟩ := hc
          by_cases h5 : (f3.destination != d) = true
          · rw [if_pos h5] at heq
            cases heq
          · rw [if_neg h5] at heq
            by_cases h6 : canConnect f2 f3
                (calculateLayoverDuration f2.arrivalDateUTC f3.departureDateUTC) = true
            · rw [if_pos h6] at heq
              injection heq with heq
              refine ⟨f1, f2, f3, hf1, hf2, hf3, ?_, ?_, h6, by rw [← heq]⟩
              · simpa using h3
              · simpa using h4
            · rw [if_neg h6] at heq
              cases heq

/-- Every candidate produced by the three stages has nonempty segments
chained by `canConnect`. -/
lemma searchCandidates_sound {st : DataStore} {p : SearchParams} {c : ConnectionCandidate}
    (h : c ∈ searchCandidates st p) :
    c.segments ≠ [] ∧ c.segments.Chain' connects := by
  simp only [searchCandidates, List.mem_append] at h
  rcases h with (h | h) | h
  · obtain ⟨f, _, rfl⟩ := mem_findDirectFlights h
    exact ⟨by simp, List.chain'_singleton f⟩
  · obtain ⟨f1, f2, _, _, hcc, hseg⟩ := mem_findOneStopConnections h
    rw [hseg]
    exact ⟨by simp, List.chain'_pair.mpr hcc⟩
  · obtain ⟨f1, f2, f3, _, _, _, _, hcc1, hcc2, hseg⟩ := mem_findTwoStopConnections h
    rw [hseg]
    refine ⟨by simp, ?_⟩
    rw [List.chain'_cons, List.chain'_pair]
    exact ⟨hcc1, hcc2⟩

/-- Every converted itinerary comes from a candidate of the input list. -/
lemma mem_convertToItineraries {gen : Nat → String} :
    ∀ {n : Nat} {l : List ConnectionCandidate} {itin : Itinerary},
      itin ∈ convertToItineraries gen n l →
      ∃ i c, c ∈ l ∧ itin = candidateToItinerary (gen i) c
  | _, [], _, h => by simp [convertToItineraries] at h
  | n, c :: cs, itin, h => by
    simp only [convertToItineraries, List.mem_cons] at h
    rcases h with rfl | h
    · exact ⟨n, c, List.mem_cons_self c cs, rfl⟩
    · obtain ⟨i, c', hc', rfl⟩ := mem_convertToItineraries h
      exact ⟨i, c', List.mem_cons_of_mem c hc', rfl⟩

/-- Conversion preserves the number of candidates. -/
lemma convertToItineraries_length (gen : Nat → String) :
    ∀ (n : Nat) (l : List ConnectionCandidate),
      (convertToItineraries gen n l).length = l.length
  | _, [] => rfl
  | n, _ :: cs => by
    simp [convertToItineraries, convertToItineraries_length gen (n + 1) cs]

/-- What the itinerary list of a successful search is. -/
lemma search_ok_itineraries {gen : Nat → String} {st : DataStore} {p : SearchParams}
    {resp : SearchResponse} (h : search gen st p = .ok resp) :
    resp.itineraries =
      (convertToItineraries gen 0 (searchCandidates st p)).insertionSort itinLE := by
  unfold search at h
  cases hv : validateSearchParams st p with
  | error e => rw [hv] at h; cases h
  | ok u =>
    rw [hv] at h
    injection h with h
    rw [← h]

/-- Every returned itinerary is the conversion of an enumerated candidate. -/
lemma mem_search_itineraries {gen : Nat → String} {st : DataStore} {p : SearchParams}
    {resp : SearchResponse} {itin : Itinerary} (h : search gen st p = .ok resp)
    (hit : itin ∈ resp.itineraries) :
    ∃ i c, c ∈ searchCandidates st p ∧ itin = candidateToItinerary (gen i) c := by
  rw [search_ok_itineraries h, List.mem_insertionSort] at hit
  exact mem_convertToItineraries hit

/-! ## Claim theorems -/

/-- C1: for every search over a loaded store with valid parameters, every
itinerary in the returned list satisfies, for each adjacent pair of segments
`i` and `i+1`: segment `i`'s destination airport code equals segment `i+1`'s
origin airport code, and segment `i+1`'s absolute departure instant is
strictly later than segment `i`'s absolute arrival instant (stated on the
enriched flights the returned itinerary is built from). -/
theorem itinerary_segments_chain (gen : Nat → String) (st : DataStore) (p : SearchParams)
    (resp : SearchResponse) (h : search gen st p = .ok resp) :
    ∀ itin ∈ resp.itineraries,
      itin.segments.Chain' (fun s t => s.destination = t.origin) ∧
      ∃ id c, c ∈ searchCandidates st p ∧ itin = candidateToItinerary id c ∧
        c.segments.Chain' fun f g =>
          f.destination = g.origin ∧ f.arrivalDateUTC < g.departureDateUTC := by
  intro itin hit
  obtain ⟨i, c, hc, rfl⟩ := mem_search_itineraries h hit
  have hchain : c.segments.Chain' fun f g =>
      f.destination = g.origin ∧ f.arrivalDateUTC < g.departureDateUTC :=
    (searchCandidates_sound hc).2.imp fun {a b} hab =>
      ⟨(canConnect_spec hab).1, (canConnect_spec hab).2.1⟩
  constructor
  · show (c.segments.map toSegment).Chain' _
    rw [List.chain'_map]
    exact hchain.imp fun {a b} hab => hab.1
  · exact ⟨gen i, c, hc, rfl, hchain⟩

/-- C1 witness: the concrete one-stop itinerary returned by the sample
search satisfies the chain property. -/
theorem itinerary_segments_chain_witness :
    exItinOne ∈ exRespMain.itineraries ∧
      (exItinOne.segments.Chain' (fun s t => s.destination = t.origin) ∧
        ∃ id c, c ∈ searchCandidates exStoreMain exParamsMain ∧
          exItinOne = candidateToItinerary id c ∧
          c.segments.Chain' fun f g =>
            f.destination = g.origin ∧ f.arrivalDateUTC < g.departureDateUTC) :=
  ⟨by decide,
    itinerary_segments_chain gEx exStoreMain exParamsMain exRespMain rfl exItinOne (by decide)⟩

/-- C2: for every search over a loaded store with valid parameters, every
layover record of every returned itinerary is flagged domestic exactly when
the arriving leg's destination-airport country equals the departing leg's
origin-airport country, and its minutes value lies within `[45, 360]` when
the flag is true and within `[90, 360]` when it is false. -/
theorem itinerary_layover_bounds (gen : Nat → String) (st : DataStore) (p : SearchParams)
    (resp : SearchResponse) (h : search gen st p = .ok resp) :
    ∀ itin ∈ resp.itineraries,
      itin.layovers.length + 1 = itin.segments.length ∧
      ∀ x ∈ itin.layovers.zip (adjPairs itin.segments),
        x.1.isDomestic = (x.2.1.destinationCountry == x.2.2.originCountry) ∧
        (x.1.isDomestic = true → 45 ≤ x.1.duration ∧ x.1.duration ≤ 360) ∧
        (x.1.isDomestic = false → 90 ≤ x.1.duration ∧ x.1.duration ≤ 360) := by
  intro itin hit
  obtain ⟨i, c, hc, rfl⟩ := mem_search_itineraries h hit
  obtain ⟨hne, hchain⟩ := searchCandidates_sound hc
  constructor
  · show ((adjPairs c.segments).map _).length + 1 = (c.segments.map toSegment).length
    rw [List.length_map, List.length_map, adjPairs_length]
    have := List.length_pos.mpr hne
    omega
  · intro x hx
    replace hx : x ∈ (((adjPairs c.segments).map fun pr => mkLayover pr.1 pr.2).zip
      (adjPairs (c.segments.map toSegment))) := hx
    rw [adjPairs_map, List.zip_map'] at hx
    simp only [List.mem_map] at hx
    obtain ⟨pr, hpr, rfl⟩ := hx
    have hconn := chain'_adjPairs hchain pr hpr
    obtain ⟨_, _, hval⟩ := canConnect_spec hconn
    exact ⟨rfl, (isValidLayover_bounds hval).1, (isValidLayover_bounds hval).2⟩

/-- C2 witness: the layover of the concrete one-stop itinerary, paired with
its adjacent segments, is domestic and lies within bounds. -/
theorem itinerary_layover_bounds_witness :
    exItinOne ∈ exRespMain.itineraries ∧ exZipOne ∈
      exItinOne.layovers.zip (adjPairs exItinOne.segments) ∧
      (exZipOne.1.isDomestic =
          (exZipOne.2.1.destinationCountry == exZipOne.2.2.originCountry) ∧
        (exZipOne.1.isDomestic = true → 45 ≤ exZipOne.1.duration ∧ exZipOne.1.duration ≤ 360) ∧
        (exZipOne.1.isDomestic = false →
          90 ≤ exZipOne.1.duration ∧ exZipOne.1.duration ≤ 360)) :=
  ⟨by decide, by decide,
    (itinerary_layover_bounds gEx exStoreMain exParamsMain exRespMain rfl exItinOne
      (by decide)).2 exZipOne (by decide)⟩

/-- Inserting an itinerary never reorders the itineraries that share a given
total duration: stability of `orderedInsert` at one key value. -/
lemma filter_orderedInsert_key (x : Itinerary) (l : List Itinerary) (d : Int) :
    (l.orderedInsert itinLE x).filter (fun it => it.totalDuration == d) =
      if x.totalDuration == d then x :: l.filter (fun it => it.totalDuration == d)
      else l.filter (fun it => it.totalDuration == d) := by
  induction l with
  | nil =>
    by_cases hx : (x.totalDuration == d) = true <;>
      simp [List.orderedInsert, List.filter_cons, hx]
  | cons b l ih =>
    rw [List.orderedInsert]
    by_cases hxb : itinLE x b
    · rw [if_pos hxb]
      by_cases hx : (x.totalDuration == d) = true <;>
        simp [List.filter_cons, hx]
    · rw [if_neg hxb]
      rw [List.filter_cons, ih]
      by_cases hx : (x.totalDuration == d) = true
      · have hxd : x.totalDuration = d := by simpa using hx
        have hblt : b.totalDuration < x.totalDuration := by
          simpa [itinLE, not_le] using hxb
        have hbd : (b.totalDuration == d) = false := by
          simp only [beq_eq_false_iff_ne, ne_eq]
          omega
        simp [hx, hbd, List.filter_cons]
      · simp [hx, List.filter_cons]

/-- Stability of the embedded sort at one key value: the itineraries of a
given total duration come out in their input order. -/
lemma filter_insertionSort_key (d : Int) :
    ∀ l : List Itinerary,
      (l.insertionSort itinLE).filter (fun it => it.totalDuration == d) =
        l.filter (fun it => it.totalDuration == d)
  | [] => rfl
  | a :: l => by
    rw [List.insertionSort, filter_orderedInsert_key, filter_insertionSort_key d l,
      List.filter_cons]

/-- C6: the returned itinerary list is sorted by non-decreasing
`totalDuration`, and itineraries of equal `totalDuration` appear in
encounter order — filtering the result at any duration value yields exactly
the corresponding filtering of the unsorted stage-ordered list (direct, then
one-stop, then two-stop, each stage in origin-index iteration order). -/
theorem search_sorted_stable (gen : Nat → String) (st : DataStore) (p : SearchParams)
    (resp : SearchResponse) (h : search gen st p = .ok resp) :
    resp.itineraries.Sorted itinLE ∧
    ∀ d : Int,
      resp.itineraries.filter (fun it => it.totalDuration == d) =
        (convertToItineraries gen 0 (searchCandidates st p)).filter
          (fun it => it.totalDuration == d) := by
  rw [search_ok_itineraries h]
  exact ⟨List.sorted_insertionSort itinLE _, fun d => filter_insertionSort_key d _⟩

/-- C6 witness: the sample search's response is sorted and its
duration-180 itineraries appear in encounter order. -/
theorem search_sorted_stable_witness :
    search gEx exStoreMain exParamsMain = .ok exRespMain ∧
    exRespMain.itineraries.Sorted itinLE ∧
    exRespMain.itineraries.filter (fun it => it.totalDuration == 180) =
      (convertToItineraries gEx 0 (searchCandidates exStoreMain exParamsMain)).filter
        (fun it => it.totalDuration == 180) :=
  ⟨rfl, (search_sorted_stable gEx exStoreMain exParamsMain exRespMain rfl).1,
    (search_sorted_stable gEx exStoreMain exParamsMain exRespMain rfl).2 180⟩

/-- C7 counterexample: around an offset transition the round trip shifts the
wall clock.  With `tzShift` (offset 0 before instant 1000, 60 after) the
local timestamp of wall-minute 1000 converts to UTC and back to wall-minute
940, not 1000 — so the claimed identity for every valid IANA zone fails. -/
theorem roundtrip_dst_counterexample :
    utcToLocalTime (localTimeToUTC ⟨"2024-03-10", 1000⟩ tzShift) tzShift ≠
      parseISO ⟨"2024-03-10", 1000⟩ := by
  decide

/-- C7 amended: the round trip `toLocalTimestamp (toAbsoluteInstant t tz) tz`
preserves the wall-clock value whenever the zone's offset at the converted
instant equals its offset at the parsed wall value — in particular for every
fixed-offset zone.  (Near daylight-saving transitions the identity can fail,
see the counterexample.) -/
theorem roundtrip_fixed_offset (t : LocalTimestamp) (tz : Timezone)
    (h : tz (parseISO t - tz (parseISO t)) = tz (parseISO t)) :
    utcToLocalTime (localTimeToUTC t tz) tz = parseISO t := by
  have e1 : localTimeToUTC t tz = parseISO t - tz (parseISO t) := by
    simp only [localTimeToUTC, utcToZonedTime, parseISO]
    ring
  rw [utcToLocalTime, utcToZonedTime, e1, h]
  ring

/-- C7 witness: the round trip at a concrete timestamp in a concrete
fixed-offset zone. -/
theorem roundtrip_fixed_offset_witness :
    utcToLocalTime (localTimeToUTC ⟨"2024-03-15", 510⟩ tzFixed) tzFixed =
      parseISO ⟨"2024-03-15", 510⟩ :=
  roundtrip_fixed_offset ⟨"2024-03-15", 510⟩ tzFixed rfl

/-- C10: request validation has the fixed precedence origin-exists,
destination-exists, origin-differs-from-destination, date-shape, and the
failure reported is always the first check violated in that order: an
unknown origin reports the origin error regardless of the other parameters;
with the origin resolved, an unknown destination reports the destination
error; with both resolved, equal codes report the same-airport error even
when the date is also malformed; with both resolved and distinct, a
shape-failing date reports the date error; and when every check passes
validation succeeds.  Conversely, the same-airport error occurs only when
both airports resolve, and the date error only when all earlier checks
passed. -/
theorem validate_precedence (st : DataStore) (p : SearchParams) :
    (getAirport st p.origin = none →
      validateSearchParams st p = .error .invalidOriginAirport) ∧
    ((getAirport st p.origin).isSome = true → getAirport st p.destination = none →
      validateSearchParams st p = .error .invalidDestinationAirport) ∧
    ((getAirport st p.origin).isSome = true → (getAirport st p.destination).isSome = true →
      p.origin = p.destination → validateSearchParams st p = .error .sameAirport) ∧
    ((getAirport st p.origin).isSome = true → (getAirport st p.destination).isSome = true →
      p.origin ≠ p.destination → isValidDateFormat p.date = false →
      validateSearchParams st p = .error .invalidDateFormat) ∧
    ((getAirport st p.origin).isSome = true → (getAirport st p.destination).isSome = true →
      p.origin ≠ p.destination → isValidDateFormat p.date = true →
      validateSearchParams st p = .ok ()) ∧
    (validateSearchParams st p = .error .sameAirport →
      (getAirport st p.origin).isSome = true ∧ (getAirport st p.destination).isSome = true ∧
        p.origin = p.destination) ∧
    (validateSearchParams st p = .error .invalidDateFormat →
      (getAirport st p.origin).isSome = true ∧ (getAirport st p.destination).isSome = true ∧
        p.origin ≠ p.destination ∧ isValidDateFormat p.date = false) := by
  unfold validateSearchParams
  cases hO : getAirport st p.origin with
  | none => simp
  | some a =>
    cases hD : getAirport st p.destination with
    | none => simp
    | some b =>
      by_cases heq : p.origin = p.destination
      · simp [heq]
      · cases hdf : isValidDateFormat p.date <;> simp [heq, hdf]

/-- C10 witness: an unknown origin together with a malformed date fails with
the unknown-origin error, and two existing but equal airports together with
the same malformed date fail with the same-airport error — in each case the
first violated check wins. -/
theorem validate_precedence_witness :
    validateSearchParams exStoreMain ⟨"ZZZ", "AAA", "2024-13-9"⟩ =
        .error .invalidOriginAirport ∧
      validateSearchParams exStoreMain ⟨"AAA", "AAA", "2024-13-9"⟩ =
        .error .sameAirport ∧
      getAirport exStoreMain "ZZZ" = none ∧
      (getAirport exStoreMain "AAA").isSome = true ∧
      isValidDateFormat "2024-13-9" = false :=
  ⟨(validate_precedence exStoreMain ⟨"ZZZ", "AAA", "2024-13-9"⟩).1 rfl,
    (validate_precedence exStoreMain ⟨"AAA", "AAA", "2024-13-9"⟩).2.2.1 rfl rfl rfl,
    rfl, rfl, rfl⟩

/-- Stripping the id of a converted candidate forgets which id was drawn. -/
lemma strip_candidateToItinerary (s : String) (c : ConnectionCandidate) :
    stripItineraryId (candidateToItinerary s c) = candidateToItinerary "" c :=
  rfl

/-- After stripping ids, a conversion no longer depends on the id supply. -/
lemma map_strip_convertToItineraries (gen : Nat → String) :
    ∀ (n : Nat) (l : List ConnectionCandidate),
      (convertToItineraries gen n l).map stripItineraryId =
        l.map (candidateToItinerary "")
  | _, [] => rfl
  | n, c :: cs => by
    simp [convertToItineraries, map_strip_convertToItineraries gen (n + 1) cs,
      strip_candidateToItinerary]

/-- Stripping ids commutes with the duration sort (ids play no role in the
comparator). -/
lemma map_strip_insertionSort (l : List Itinerary) :
    (l.insertionSort itinLE).map stripItineraryId =
      (l.map stripItineraryId).insertionSort itinLE :=
  List.map_insertionSort itinLE itinLE stripItineraryId l fun _ _ _ _ => Iff.rfl

/-- C9 amended: search is deterministic and the store is read-only (the
model is a pure function of the store snapshot and the parameters), but the
freshly drawn `uuidv4()` itinerary ids differ between calls; after erasing
the ids, any two calls with the same store and parameters — whatever ids
their supplies draw — return identical responses. -/
theorem search_deterministic_up_to_ids (g1 g2 : Nat → String) (st : DataStore)
    (p : SearchParams) :
    stripIds (search g1 st p) = stripIds (search g2 st p) := by
  unfold search
  cases hv : validateSearchParams st p with
  | error e => rfl
  | ok u =>
    simp only [stripIds, Except.map]
    have hmap :
        ((convertToItineraries g1 0 (searchCandidates st p)).insertionSort
            itinLE).map stripItineraryId =
          ((convertToItineraries g2 0 (searchCandidates st p)).insertionSort
            itinLE).map stripItineraryId := by
      rw [map_strip_insertionSort, map_strip_insertionSort,
        map_strip_convertToItineraries, map_strip_convertToItineraries]
    have hlen :
        ((convertToItineraries g1 0 (searchCandidates st p)).insertionSort itinLE).length =
          ((convertToItineraries g2 0 (searchCandidates st p)).insertionSort
            itinLE).length := by
      have := congrArg List.length hmap
      simpa using this
    simp [SearchResponse.mk.injEq, hmap, hlen]

/-- C9 counterexample: two calls with the same loaded store and identical
parameters do not return identical `SearchResponse` values — the itinerary
ids are freshly generated and differ. -/
theorem search_ids_differ_counterexample :
    search genA exStoreMain exParamsMain ≠ search genB exStoreMain exParamsMain := by
  decide

/-- C4 amended: given existing, distinct airports, the search fails with the
invalid-date error exactly when the date string fails the
`^\d{4}-\d{2}-\d{2}$` shape test; calendar validity is never checked, so a
shape-conforming nonsense date such as `2024-13-99` is accepted. -/
theorem date_validation_shape_only (gen : Nat → String) (st : DataStore) (p : SearchParams)
    (hor : (getAirport st p.origin).isSome = true)
    (hde : (getAirport st p.destination).isSome = true)
    (hne : p.origin ≠ p.destination) :
    (isValidDateFormat p.date = false → search gen st p = .error .invalidDateFormat) ∧
    (isValidDateFormat p.date = true → (search gen st p).isOk = true) := by
  obtain ⟨a, ha⟩ := Option.isSome_iff_exists.mp hor
  obtain ⟨b, hb⟩ := Option.isSome_iff_exists.mp hde
  unfold search validateSearchParams
  rw [ha, hb]
  constructor
  · intro hd
    simp [hne, hd]
  · intro hd
    simp [hne, hd, Except.isOk, Except.toBool]

/-- C4 counterexample: with existing, distinct airports, the
calendar-invalid date `2024-13-99` matches the shape regex and the search
succeeds instead of failing with the invalid-date error. -/
theorem calendar_invalid_date_accepted_counterexample :
    (getAirport exStoreMain "AAA").isSome = true ∧
    (getAirport exStoreMain "CCC").isSome = true ∧
    ("AAA" : String) ≠ "CCC" ∧
    isValidDateFormat "2024-13-99" = true ∧
    (search gEx exStoreMain ⟨"AAA", "CCC", "2024-13-99"⟩).isOk = true :=
  ⟨rfl, rfl, by decide, rfl, rfl⟩

/-- C4 witness: a malformed shape is rejected with the invalid-date error,
while the shape-conforming nonsense date is accepted. -/
theorem date_validation_shape_only_witness :
    search gEx exStoreMain ⟨"AAA", "CCC", "2024-3-15"⟩ = .error .invalidDateFormat ∧
    (search gEx exStoreMain ⟨"AAA", "CCC", "2024-13-99"⟩).isOk = true :=
  ⟨(date_validation_shape_only gEx exStoreMain ⟨"AAA", "CCC", "2024-3-15"⟩ rfl rfl
      (by decide)).1 rfl,
    (date_validation_shape_only gEx exStoreMain ⟨"AAA", "CCC", "2024-13-99"⟩ rfl rfl
      (by decide)).2 rfl⟩

/-- What a successful enrichment records: the raw flight verbatim, and a
duration that is exactly arrival instant minus departure instant — of either
sign. -/
lemma enrichFlightWithMetadata_fields {amap : String → Option Airport} {rf : Flight}
    {f : FlightWithMetadata} (h : enrichFlightWithMetadata amap rf = .ok f) :
    f.toFlight = rf ∧
      f.durationMinutes = calculateDuration f.departureDateUTC f.arrivalDateUTC := by
  unfold enrichFlightWithMetadata at h
  cases hO : amap rf.origin with
  | none => cases hD : amap rf.destination <;> rw [hO, hD] at h <;> cases h
  | some oa =>
    cases hD : amap rf.destination with
    | none => rw [hO, hD] at h; cases h
    | some da =>
      rw [hO, hD] at h
      injection h with h
      rw [← h]
      exact ⟨rfl, rfl⟩

/-- Every dataset flight of a successful enrichment appears in the output. -/
lemma enrichAll_mem_fwd {amap : String → Option Airport} :
    ∀ {l : List Flight} {l' : List FlightWithMetadata},
      enrichAll amap l = .ok l' →
      ∀ x ∈ l, ∃ y ∈ l', enrichFlightWithMetadata amap x = .ok y
  | [], _, _, x, hx => by simp at hx
  | f :: fs, l', h, x, hx => by
    unfold enrichAll at h
    cases he : enrichFlightWithMetadata amap f with
    | error e => rw [he] at h; cases h
    | ok fw =>
      rw [he] at h
      cases hr : enrichAll amap fs with
      | error e => rw [hr] at h; cases h
      | ok fws =>
        rw [hr] at h
        injection h with h
        subst h
        rcases List.mem_cons.mp hx with rfl | hx
        · exact ⟨fw, List.mem_cons_self fw fws, he⟩
        · obtain ⟨y, hy, hye⟩ := enrichAll_mem_fwd hr x hx
          exact ⟨y, List.mem_cons_of_mem fw hy, hye⟩

/-- Every enriched flight of a successful enrichment comes from the
dataset. -/
lemma enrichAll_mem_rev {amap : String → Option Airport} :
    ∀ {l : List Flight} {l' : List FlightWithMetadata},
      enrichAll amap l = .ok l' →
      ∀ y ∈ l', ∃ x ∈ l, enrichFlightWithMetadata amap x = .ok y
  | [], l', h, y, hy => by
    unfold enrichAll at h
    injection h with h
    subst h
    simp at hy
  | f :: fs, l', h, y, hy => by
    unfold enrichAll at h
    cases he : enrichFlightWithMetadata amap f with
    | error e => rw [he] at h; cases h
    | ok fw =>
      rw [he] at h
      cases hr : enrichAll amap fs with
      | error e => rw [hr] at h; cases h
      | ok fws =>
        rw [hr] at h
        injection h with h
        subst h
        rcases List.mem_cons.mp hy with rfl | hy
        · exact ⟨f, List.mem_cons_self f fs, he⟩
        · obtain ⟨x, hx, hxe⟩ := enrichAll_mem_rev hr y hy
          exact ⟨x, List.mem_cons_of_mem f hx, hxe⟩

/-- The enriched flight list of a successfully loaded store. -/
lemma loadData_ok_fwm {st0 : DataStore} {ds : FlightData} {st : DataStore}
    (h : loadData st0 ds = .ok st) :
    enrichAll (loadAirportMap st0.airportMap ds.airports) ds.flights =
      .ok st.flightsWithMetadata := by
  simp only [loadData, buildIndices] at h
  cases he : enrichAll (loadAirportMap st0.airportMap ds.airports) ds.flights with
  | error e => rw [he] at h; cases h
  | ok fwm =>
    rw [he] at h
    injection h with h
    rw [← h]

/-- C3 amended: load-time enrichment does not reject any flight by duration
sign: whenever a load succeeds, every dataset flight — including one whose
computed absolute duration is negative — is enriched and present in the
store, its `durationMinutes` recorded as arrival instant minus departure
instant with no sign check. -/
theorem enrichment_keeps_negative_duration (st0 : DataStore) (ds : FlightData)
    (st : DataStore) (rf : Flight) (hload : loadData st0 ds = .ok st)
    (hrf : rf ∈ ds.flights) :
    ∃ f ∈ st.flightsWithMetadata, f.toFlight = rf ∧
      f.durationMinutes = calculateDuration f.departureDateUTC f.arrivalDateUTC := by
  obtain ⟨y, hy, hye⟩ := enrichAll_mem_fwd (loadData_ok_fwm hload) rf hrf
  obtain ⟨h1, h2⟩ := enrichFlightWithMetadata_fields hye
  exact ⟨y, hy, h1, h2⟩

/-- C3 counterexample: the dataset whose flight `NEG1` arrives before it
departs loads successfully, and the store then contains `NEG1` with
duration −60 — the flight is not rejected at load time. -/
theorem negative_duration_loaded_counterexample :
    (loadData emptyStore exData3).toOption.map
        (fun st => st.flightsWithMetadata.map fun f => (f.flightNumber, f.durationMinutes)) =
      some [("NEG1", -60)] :=
  rfl

/-- C3 witness: the amended theorem applied to the negative-duration
dataset. -/
theorem enrichment_keeps_negative_duration_witness :
    ∃ f ∈ exStore3.flightsWithMetadata, f.toFlight = flightNEG ∧
      f.durationMinutes = calculateDuration f.departureDateUTC f.arrivalDateUTC :=
  enrichment_keeps_negative_duration emptyStore exData3 exStore3 flightNEG rfl (by decide)

/-- C8 (code bug): calling `loadData` a second time with the same dataset
does not reproduce the single-load index state: `buildIndices` appends to
the existing buckets without clearing them, so after the second load the
by-origin bucket holds the flight twice while `flightsWithMetadata` holds it
once. -/
theorem second_load_duplicates_buckets :
    ((loadData emptyStore exData8).bind fun st1 => loadData st1 exData8).toOption.map
        (fun st => ((st.flightsByOrigin "AAA").map fun f => f.flightNumber,
          st.flightsWithMetadata.length)) = some (["F100", "F100"], 1) ∧
    (loadData emptyStore exData8).toOption.map
        (fun st => ((st.flightsByOrigin "AAA").map fun f => f.flightNumber,
          st.flightsWithMetadata.length)) = some (["F100"], 1) :=
  ⟨rfl, rfl⟩

/-- A bucket after folding `bucketAdd` over a flight list: the starting
bucket followed by the flights keyed to it, in order. -/
lemma foldl_bucketAdd (key : FlightWithMetadata → String) :
    ∀ (l : List FlightWithMetadata) (m0 : String → List FlightWithMetadata) (k : String),
      (l.foldl (fun m f => bucketAdd m (key f) f) m0) k =
        m0 k ++ l.filter (fun f => key f == k)
  | [], m0, k => by simp
  | f :: fs, m0, k => by
    rw [List.foldl_cons, foldl_bucketAdd key fs _ k, List.filter_cons]
    by_cases hk : k = key f
    · have hbeq : (key f == k) = true := by simp [hk]
      rw [hbeq]
      simp [bucketAdd, hk]
    · have hbeq : (key f == k) = false := by simp [beq_eq_false_iff_ne]; exact fun he => hk he.symm
      rw [hbeq]
      simp [bucketAdd, hk]

/-- The by-origin bucket of a successfully loaded store: the previous bucket
followed by the enriched flights departing there. -/
lemma loadData_ok_byOrigin {st0 : DataStore} {ds : FlightData} {st : DataStore}
    (h : loadData st0 ds = .ok st) (k : String) :
    st.flightsByOrigin k =
      st0.flightsByOrigin k ++ st.flightsWithMetadata.filter (fun f => f.origin == k) := by
  simp only [loadData, buildIndices] at h
  cases he : enrichAll (loadAirportMap st0.airportMap ds.airports) ds.flights with
  | error e => rw [he] at h; cases h
  | ok fwm =>
    rw [he] at h
    injection h with h
    rw [← h]
    exact foldl_bucketAdd (fun f => f.origin) fwm st0.flightsByOrigin k

/-- C5 amended: over a store loaded from a dataset with no self-loop flight
(origin = destination), no returned two-stop itinerary has the search origin
as the destination airport of its first or second segment.  The code guards
only the second segment (`secondFlight.destination === origin`); the first
segment departs the search origin, so its destination can equal the origin
only for a self-loop flight — which the counterexample exhibits. -/
theorem two_stop_no_origin_revisit (gen : Nat → String) (ds : FlightData) (st : DataStore)
    (p : SearchParams) (resp : SearchResponse)
    (hload : loadData emptyStore ds = .ok st)
    (hnoloop : ∀ rf ∈ ds.flights, rf.origin ≠ rf.destination)
    (h : search gen st p = .ok resp) :
    ∀ itin ∈ resp.itineraries, itin.stops = 2 →
      ∀ s ∈ itin.segments.dropLast, s.destination ≠ p.origin := by
  intro itin hit hstops s hs
  obtain ⟨i, c, hc, rfl⟩ := mem_search_itineraries h hit
  have hstops' : c.segments.length - 1 = 2 := hstops
  simp only [searchCandidates, List.mem_append] at hc
  rcases hc with (hc | hc) | hc
  · obtain ⟨f, _, rfl⟩ := mem_findDirectFlights hc
    simp at hstops'
  · obtain ⟨f1, f2, _, _, _, hseg⟩ := mem_findOneStopConnections hc
    rw [hseg] at hstops'
    simp at hstops'
  · obtain ⟨f1, f2, f3, hf1, _, _, hf2o, _, _, hseg⟩ := mem_findTwoStopConnections hc
    replace hs : s ∈ (c.segments.map toSegment).dropLast := hs
    rw [hseg] at hs
    simp only [List.map_cons, List.map_nil, List.dropLast, List.mem_cons,
      List.not_mem_nil, or_false] at hs
    have hf1' : f1 ∈ st.flightsByOrigin p.origin := (List.mem_filter.mp hf1).1
    rw [loadData_ok_byOrigin hload p.origin] at hf1'
    replace hf1' : f1 ∈ ([] : List FlightWithMetadata) ++
        st.flightsWithMetadata.filter (fun f => f.origin == p.origin) := hf1'
    rw [List.nil_append] at hf1'
    obtain ⟨hf1mem, hf1orig⟩ := List.mem_filter.mp hf1'
    obtain ⟨rf, hrf, hrfe⟩ := enrichAll_mem_rev (loadData_ok_fwm hload) f1 hf1mem
    have hfields := (enrichFlightWithMetadata_fields hrfe).1
    have horig : f1.origin = p.origin := by simpa using hf1orig
    have hnl := hnoloop rf hrf
    have hfo : rf.origin = f1.origin := by rw [← hfields]
    have hfd : rf.destination = f1.destination := by rw [← hfields]
    rcases hs with rfl | rfl
    · show f1.destination ≠ p.origin
      rw [← horig, ← hfd, ← hfo]
      exact Ne.symm hnl
    · show f2.destination ≠ p.origin
      simpa using hf2o

/-- C5 counterexample: the loaded dataset with self-loop flight
`L0 : AAA→AAA` yields, for the valid search AAA→CCC, a returned two-stop
itinerary whose first segment's destination is the search origin. -/
theorem two_stop_revisits_origin_counterexample :
    loadData emptyStore exDataLoop = .ok exStoreLoop ∧
    search gEx exStoreLoop exParamsMain = .ok exRespLoop ∧
    exItinLoop ∈ exRespLoop.itineraries ∧
    exItinLoop.stops = 2 ∧
    (exItinLoop.segments.getD 0 defaultSegment).destination = exParamsMain.origin :=
  ⟨rfl, rfl, by decide, by decide, by decide⟩

/-- C5 witness: the amended theorem applied to the loop-free sample store:
the two-stop itinerary's first segment does not return to the origin. -/
theorem two_stop_no_origin_revisit_witness :
    exItinTwo ∈ exRespMain.itineraries ∧ exItinTwo.stops = 2 ∧
    exSegTwoFirst ∈ exItinTwo.segments.dropLast ∧
    exSegTwoFirst.destination ≠ exParamsMain.origin :=
  ⟨by decide, by decide, by decide,
    two_stop_no_origin_revisit gEx exDataMain exStoreMain exParamsMain exRespMain rfl
      (by decide) rfl exItinTwo (by decide) (by decide) exSegTwoFirst (by decide)⟩

end FlightSearch
